import Mathlib

/-!
A shallow embedding of `src/generate_flightlog_wca.py` (the temporal
correlation and pose estimation pipeline for retroactive geotagging of
survey images), together with theorems about its behaviour.

The source file contains an unresolved git merge conflict; where two
variants of a function exist, the definitions below follow the variant
whose line numbers are cited next to each definition (the variant from
the `parent of 522c19c` side of the conflict, which is the one wired
into that side's `main`).

Modelling conventions:
  - timestamps are modelled as integer seconds (both timestamp formats in
    the source, `%Y%m%d%H%M%S` for filenames and `%Y-%m-%dT%H:%M:%S` for
    telemetry, have one-second resolution, and `timedelta` comparison on
    such values is exact integer-second comparison);
  - numeric telemetry values are rationals; a Python dict key that may be
    missing is an `Option` field, and `dict.get k` / `dict.get k d`
    become `Option` access / `Option.getD`;
  - a raised-and-uncaught Python exception is the `.error` case of
    `Except String`, carrying the exception class name; `sys.exit(1)` in
    the flight-log writer is modelled as a returned flag;
  - the filesystem state of the output file is `Option (List String)`
    (`none` = file absent, `some lines` = file present with those lines);
  - `str(x)` on an optional numeric value is `py_str` below: Python's
    `str(None)` is the four characters `None`; exact numeral formatting
    of rationals is abstracted by `toString`.
-/

namespace FlightLog

/-- Decidable equality of `Except` results, used to evaluate the error
behaviour of the embedded functions on concrete inputs. -/
instance {ε α : Type} [DecidableEq ε] [DecidableEq α] : DecidableEq (Except ε α) := fun x y =>
  match x, y with
  | .error a, .error b => decidable_of_iff (a = b) (by simp)
  | .ok a, .ok b => decidable_of_iff (a = b) (by simp)
  | .error _, .ok _ => isFalse (fun h => Except.noConfusion h)
  | .ok _, .error _ => isFalse (fun h => Except.noConfusion h)

/-- Python `s.split(c)` on the character list of a string: splits at every
occurrence of `c`, keeping empty segments, and yields at least one
segment. -/
def py_split_char (c : Char) : List Char → List (List Char)
  | [] => [[]]
  | a :: rest =>
    let groups := py_split_char c rest
    if a = c then [] :: groups
    else
      match groups with
      | [] => [[a]]
      | g :: gs => (a :: g) :: gs

/-- Python `s.split(sep)` for a one-character separator, as a list of
strings. -/
def py_split (s : String) (sep : Char) : List String :=
  (py_split_char sep s.data).map String.mk

/-- Python `s.startswith(pre)`: the characters of `pre` are a prefix of
the characters of `s`. -/
def py_startswith (s pre : String) : Bool :=
  pre.data.isPrefixOf s.data

/-- Python `s.replace(c, "")`: remove every occurrence of the character. -/
def py_removeall (s : String) (c : Char) : String :=
  String.mk (s.data.filter (fun a => a != c))

/-- Numeric value of a string of decimal digits (used only after an
all-digit check, where it agrees with Python `int(s)`). -/
def digits_to_nat (l : List Char) : Nat :=
  l.foldl (fun n c => n * 10 + (c.toNat - 48)) 0

/-- One telemetry row as consumed by `estimate_location` (source lines
199-228): an absolute time and the optional numeric fields the code reads
from it (`LAT`, `LONG`, `DEPTH`, `HEADING`, `PITCH`, `ROLL`). `none`
models a missing dict key. -/
structure DataRow where
  TIME : Int
  LAT : Option ℚ
  LONG : Option ℚ
  DEPTH : Option ℚ
  HEADING : Option ℚ
  PITCH : Option ℚ
  ROLL : Option ℚ
deriving DecidableEq

/-- An image as produced by `read_image_filenames` (source lines 108-132),
before location estimation: filename plus parsed timestamp. -/
structure ImageIn where
  FILENAME : String
  TIMESTAMP : Int
deriving DecidableEq

/-- An image after `estimate_location` has updated it in place (source
lines 210-226): the original identity fields plus the estimated
position/pose fields. `none` models Python `None`. -/
structure ImageOut where
  FILENAME : String
  TIMESTAMP : Int
  LAT : Option ℚ
  LONG : Option ℚ
  UTM_X : Option ℚ
  UTM_Y : Option ℚ
  ALTITUDE_EST : Option ℚ
  HEADING : Option ℚ
  PITCH : Option ℚ
  ROLL : Option ℚ
deriving DecidableEq

/-- The running value maintained by Python's built-in `min(l, key=k)`:
starting from the head, a later element replaces the current best only
when its key is strictly smaller, so the first element attaining the
minimum key wins ties. -/
def pysel (key : α → Int) (x : α) (xs : List α) : α :=
  xs.foldl (fun b a => if key a < key b then a else b) x

/-- Python's `min(l, key=k)`, returning `none` on the empty list (where
Python would raise; the source only calls it on a non-empty list). -/
def pymin (key : α → Int) : List α → Option α
  | [] => none
  | x :: xs => some (pysel key x xs)

/-- `relevant_data_rows` of source line 203: the telemetry rows whose
time differs from the image timestamp by at most `timedelta(seconds=2)`. -/
def relevant_rows (data_rows : List DataRow) (ts : Int) : List DataRow :=
  data_rows.filter (fun row => |row.TIME - ts| ≤ 2)

/-- `closest_match` of source lines 204-205: among the rows within the
2-second tolerance window, the one minimizing the absolute time
difference (`min` with key `abs(row["TIME"] - image["TIMESTAMP"])`);
`none` when the window is empty. -/
def closest_row (data_rows : List DataRow) (ts : Int) : Option DataRow :=
  pymin (fun row => |row.TIME - ts|) (relevant_rows data_rows ts)

/-- The parameters `convert_to_utm` (source lines 52-62) passes to the
external projection: the zone substring interpolated into the proj
string, and whether the proj string carries a southern-hemisphere flag. -/
structure ProjSpec where
  zone : String
  south : Bool
deriving DecidableEq

/-- Modelled from the spec: the external `pyproj.Proj` capability
(spec section 4.6), which is not part of this repository. It is
parameterized by the underlying northern-hemisphere projection
`f : zone -> lon -> lat -> (easting, northing)`; per the standard
convention for this projection family the southern-hemisphere flag
offsets the northing by the fixed false northing of 10,000,000 meters. -/
def projCall (f : String → ℚ → ℚ → ℚ × ℚ) (spec : ProjSpec) (lon lat : ℚ) : ℚ × ℚ :=
  let p := f spec.zone lon lat
  (p.1, if spec.south then p.2 - 10000000 else p.2)

/-- `convert_to_utm` (source lines 52-62). When either coordinate is
`None` it returns `(None, None)` before touching the projection.
Otherwise it builds the proj string
`"+proj=utm +zone={utm_zone[:-1]} +ellps=WGS84 +datum=WGS84 +units=m +no_defs"`:
the zone parameter is the specifier with its last character dropped, and
the string never contains a southern-hemisphere flag. The `except`
branch (projection failure) is unreachable in this total model. -/
def convert_to_utm (f : String → ℚ → ℚ → ℚ × ℚ) (lat lon : Option ℚ)
    (utm_zone : String) : Option ℚ × Option ℚ :=
  match lat, lon with
  | some la, some lo =>
    let spec : ProjSpec := { zone := utm_zone.dropRight 1, south := false }
    let p := projCall f spec lo la
    (some p.1, some p.2)
  | _, _ => (none, none)

/-- The loop body of `estimate_location` (source lines 202-227) for one
image: if some telemetry row lies within the 2-second window, populate
the image from the closest such row (with `base_pitch` 40 for filenames
starting with `P`, else 0, and the row's `PITCH` defaulting to 0);
otherwise set every estimated field to `None` except that a `P`-prefixed
image still gets `PITCH` 40. -/
def estimate_image (f : String → ℚ → ℚ → ℚ × ℚ) (data_rows : List DataRow)
    (utm_zone : String) (image : ImageIn) : ImageOut :=
  match closest_row data_rows image.TIMESTAMP with
  | some closest_match =>
    let lat := closest_match.LAT
    let lon := closest_match.LONG
    let utm := convert_to_utm f lat lon utm_zone
    let base_pitch : ℚ := if py_startswith image.FILENAME "P" then 40 else 0
    let tsv_pitch : ℚ := closest_match.PITCH.getD 0
    { FILENAME := image.FILENAME, TIMESTAMP := image.TIMESTAMP,
      LAT := lat, LONG := lon, UTM_X := utm.1, UTM_Y := utm.2,
      ALTITUDE_EST := closest_match.DEPTH, HEADING := closest_match.HEADING,
      PITCH := some (base_pitch + tsv_pitch), ROLL := closest_match.ROLL }
  | none =>
    { FILENAME := image.FILENAME, TIMESTAMP := image.TIMESTAMP,
      LAT := none, LONG := none, UTM_X := none, UTM_Y := none,
      ALTITUDE_EST := none, HEADING := none,
      PITCH := if py_startswith image.FILENAME "P" then some 40 else none,
      ROLL := none }

/-- `estimate_location` (source lines 199-228): updates every image in
order and returns the updated list together with `matches_made`, the
number of images for which a row within tolerance existed. -/
def estimate_location (f : String → ℚ → ℚ → ℚ × ℚ) (image_data : List ImageIn)
    (data_rows : List DataRow) (utm_zone : String) : List ImageOut × Nat :=
  (image_data.map (estimate_image f data_rows utm_zone),
   image_data.countP (fun image => (closest_row data_rows image.TIMESTAMP).isSome))

/-- Python `str()` applied to an optional numeric field when a line is
serialized: `str(None)` is the literal text `None`; formatting of actual
numbers is abstracted by `toString`. -/
def py_str : Option ℚ → String
  | none => "None"
  | some q => toString q

/-- The header line written by `generate_flight_log` (source lines
239 and 248), depending on the chosen coordinate system. -/
def flight_log_header (coordinate_system : String) : String :=
  if coordinate_system = "UTM" then "Name;X (East);Y (North);Alt;Yaw;Pitch;Roll"
  else "Name;Lat;Long;Alt;Yaw;Pitch;Roll"

/-- One data line of `generate_flight_log` (source lines 241-245 and
250-254): the semicolon join of the image's fields for the chosen
coordinate system. Written for every image, with no condition on the
fields. -/
def serialize_line (coordinate_system : String) (image : ImageOut) : String :=
  if coordinate_system = "UTM" then
    String.intercalate ";" [image.FILENAME, py_str image.UTM_X, py_str image.UTM_Y,
      py_str image.ALTITUDE_EST, py_str image.HEADING, py_str image.PITCH, py_str image.ROLL]
  else
    String.intercalate ";" [image.FILENAME, py_str image.LAT, py_str image.LONG,
      py_str image.ALTITUDE_EST, py_str image.HEADING, py_str image.PITCH, py_str image.ROLL]

/-- `generate_flight_log` (source lines 230-256). `existing` is the prior
content of the destination file (`none` = absent). If the file already
exists the function prints and calls `sys.exit(1)` without opening it:
modelled as returning the unchanged content with the exit flag `true`.
Otherwise it writes the header and then appends one line per image, in
order, and returns the new content with the flag `false`. -/
def generate_flight_log (image_data : List ImageOut) (coordinate_system : String)
    (existing : Option (List String)) : Option (List String) × Bool :=
  match existing with
  | some content => (some content, true)
  | none =>
    (some (image_data.foldl (fun acc image => acc ++ [serialize_line coordinate_system image])
      [flight_log_header coordinate_system]), false)

/-- Gregorian leap-year test, as used by Python's calendar arithmetic. -/
def isLeapYear (y : Nat) : Bool :=
  y % 4 = 0 && (y % 100 != 0 || y % 400 = 0)

/-- Number of days in a month, as validated by `datetime`. -/
def daysInMonth (y m : Nat) : Nat :=
  if m = 2 then (if isLeapYear y then 29 else 28)
  else if m = 4 ∨ m = 6 ∨ m = 9 ∨ m = 11 then 30
  else 31

/-- The result of a successful `datetime.strptime(s, "%Y%m%d%H%M%S")`. -/
structure PyDateTime where
  year : Nat
  month : Nat
  day : Nat
  hour : Nat
  minute : Nat
  second : Nat
deriving DecidableEq

/-- `datetime.strptime(s, "%Y%m%d%H%M%S")`, returning `none` where Python
raises `ValueError`. The fixed-width all-numeric pattern forces the
string to be exactly 14 ASCII digits split 4-2-2-2-2-2, with month,
day (validated against the month length), hour, minute and second in
range; `none` covers both the regex mismatch and the range errors raised
by the `datetime` constructor. -/
def strptime14 (s : String) : Option PyDateTime :=
  let cs := s.data
  if cs.length = 14 ∧ cs.all Char.isDigit then
    let y := digits_to_nat (cs.take 4)
    let mo := digits_to_nat ((cs.drop 4).take 2)
    let d := digits_to_nat ((cs.drop 6).take 2)
    let h := digits_to_nat ((cs.drop 8).take 2)
    let mi := digits_to_nat ((cs.drop 10).take 2)
    let sec := digits_to_nat ((cs.drop 12).take 2)
    if 1 ≤ y ∧ 1 ≤ mo ∧ mo ≤ 12 ∧ 1 ≤ d ∧ d ≤ daysInMonth y mo ∧
        h ≤ 23 ∧ mi ≤ 59 ∧ sec ≤ 59 then
      some ⟨y, mo, d, h, mi, sec⟩
    else none
  else none

/-- `parse_timestamp_from_filename` (source lines 85-100). For `WCA`
input the timestamp is the first 14 characters of the second
underscore-delimited segment: when the filename has no underscore,
`parts[1]` raises `IndexError`, which the surrounding
`except ValueError` does not catch, so the exception escapes (`.error`).
For `Zeuss` input the timestamp is the first segment with every `T` and
`Z` removed. A `ValueError` from `strptime` is caught and reported,
returning `None` (`.ok none`). Any other `data_type` leaves
`timestamp_str` unassigned, so the `strptime` call raises an uncaught
`UnboundLocalError` (`main` rejects such values before this is reached). -/
def parse_timestamp_from_filename (filename data_type : String) :
    Except String (Option PyDateTime) :=
  if data_type = "WCA" then
    match (py_split filename '_').get? 1 with
    | none => .error "IndexError"
    | some p1 => .ok (strptime14 (p1.take 14))
  else if data_type = "Zeuss" then
    let ts := py_removeall (py_removeall ((py_split filename '_').headD "") 'T') 'Z'
    .ok (strptime14 ts)
  else .error "UnboundLocalError"

/-- An image record accumulated by `read_image_filenames`: filename plus
the parsed timestamp. -/
structure ImageNamed where
  FILENAME : String
  TIMESTAMP : PyDateTime
deriving DecidableEq

/-- The loop body of `read_image_filenames` (source lines 115-128) for
one directory entry: non-images are skipped, an image whose timestamp
parses is appended, an image whose parse returned `None` is skipped, and
an escaped exception from the parser propagates. `is_image` abstracts
the external PIL-based `is_image_file` check. -/
def read_image_step (is_image : String → Bool) (data_type : String)
    (image_data : List ImageNamed) (filename : String) :
    Except String (List ImageNamed) :=
  if is_image filename then
    match parse_timestamp_from_filename filename data_type with
    | .error e => .error e
    | .ok (some t) => .ok (image_data ++ [⟨filename, t⟩])
    | .ok none => .ok image_data
  else .ok image_data

/-- `read_image_filenames` (source lines 108-132): folds
`read_image_step` over the directory listing, starting from the empty
record list. An exception escaping the parser aborts the whole loop. -/
def read_image_filenames (is_image : String → Bool) (image_files : List String)
    (data_type : String) : Except String (List ImageNamed) :=
  image_files.foldlM (read_image_step is_image data_type) []

/-- `read_tsv_data` (source lines 32-50). The input is the raw table:
the first row is the header, each further row is turned into the dict
`{headers[i]: row[i] for i in range(len(row))}`, which stores every cell
verbatim. A row longer than the header raises `IndexError`, and an empty
file makes `next(reader)` raise `StopIteration`; both are caught by the
blanket `except`, which exits the run (`.error`). -/
def read_tsv_data (table : List (List String)) :
    Except String (List (List (String × String))) :=
  match table with
  | [] => .error "StopIteration"
  | headers :: rows =>
    if rows.all (fun row => row.length ≤ headers.length) then
      .ok (rows.map (fun row => headers.zip row))
    else .error "IndexError"

/-- Lookup in the dict built by `read_tsv_data`: Python dict construction
lets a later duplicate key overwrite an earlier one, so lookup finds the
last binding. -/
def pyDictGet (d : List (String × String)) (k : String) : Option String :=
  (d.reverse.find? (fun p => p.1 = k)).map (fun p => p.2)

/-- A concrete stand-in for the external projection used to instantiate
theorems: it returns `(lon, lat)` unchanged for every zone. -/
def proj_id : String → ℚ → ℚ → ℚ × ℚ := fun _ lon lat => (lon, lat)

/-- The running minimum kept by `pysel` is either the initial element,
which is then a lower bound for the whole list, or an element of the
list that is strictly below the initial element and every element before
it, and at or below every element of the list: Python's `min` keeps the
first element attaining the minimum key. -/
theorem pysel_spec {α : Type} (key : α → Int) :
    ∀ (xs : List α) (x : α),
      (pysel key x xs = x ∧ ∀ b ∈ xs, key x ≤ key b) ∨
      (∃ l₁ l₂, xs = l₁ ++ pysel key x xs :: l₂ ∧
        key (pysel key x xs) < key x ∧
        (∀ b ∈ l₁, key (pysel key x xs) < key b) ∧
        (∀ b ∈ xs, key (pysel key x xs) ≤ key b))
  | [], x => Or.inl ⟨rfl, by simp⟩
  | a :: xs, x => by
    have hstep : pysel key x (a :: xs) = pysel key (if key a < key x then a else x) xs := rfl
    by_cases h : key a < key x
    · rw [if_pos h] at hstep
      rcases pysel_spec key xs a with ⟨heq, hall⟩ | ⟨l₁, l₂, hsplit, hlt, hfirst, hall⟩
      · refine Or.inr ⟨[], xs, ?_, ?_, ?_, ?_⟩
        · rw [hstep, heq]; rfl
        · rw [hstep, heq]; exact h
        · intro b hb; exact absurd hb (List.not_mem_nil b)
        · intro b hb
          rw [hstep, heq]
          rcases List.mem_cons.mp hb with rfl | hb
          · exact le_refl _
          · exact hall b hb
      · refine Or.inr ⟨a :: l₁, l₂, ?_, ?_, ?_, ?_⟩
        · rw [hstep, List.cons_append, ← hsplit]
        · rw [hstep]; exact lt_trans hlt h
        · intro b hb
          rw [hstep]
          rcases List.mem_cons.mp hb with rfl | hb
          · exact hlt
          · exact hfirst b hb
        · intro b hb
          rw [hstep]
          rcases List.mem_cons.mp hb with rfl | hb
          · exact le_of_lt hlt
          · exact hall b hb
    · rw [if_neg h] at hstep
      have hxa : key x ≤ key a := le_of_not_lt h
      rcases pysel_spec key xs x with ⟨heq, hall⟩ | ⟨l₁, l₂, hsplit, hlt, hfirst, hall⟩
      · refine Or.inl ⟨by rw [hstep, heq], ?_⟩
        intro b hb
        rcases List.mem_cons.mp hb with rfl | hb
        · exact hxa
        · exact hall b hb
      · refine Or.inr ⟨a :: l₁, l₂, ?_, ?_, ?_, ?_⟩
        · rw [hstep, List.cons_append, ← hsplit]
        · rw [hstep]; exact hlt
        · intro b hb
          rw [hstep]
          rcases List.mem_cons.mp hb with rfl | hb
          · exact lt_of_lt_of_le hlt hxa
          · exact hfirst b hb
        · intro b hb
          rw [hstep]
          rcases List.mem_cons.mp hb with rfl | hb
          · exact le_of_lt (lt_of_lt_of_le hlt hxa)
          · exact hall b hb

/-- `pymin` returns `none` exactly on the empty list. -/
theorem pymin_none_iff {α : Type} (key : α → Int) (l : List α) :
    pymin key l = none ↔ l = [] := by
  cases l <;> simp [pymin]

/-- Whenever `pymin` returns an element, the list splits around that
element so that everything before it has strictly larger key and
everything in the list has at least its key. -/
theorem pymin_first_min {α : Type} (key : α → Int) (l : List α) (r : α)
    (h : pymin key l = some r) :
    ∃ l₁ l₂, l = l₁ ++ r :: l₂ ∧ (∀ b ∈ l₁, key r < key b) ∧
      ∀ b ∈ l, key r ≤ key b := by
  match l, h with
  | x :: xs, h =>
    have hr : pysel key x xs = r := by simpa [pymin] using h
    rcases pysel_spec key xs x with ⟨heq, hall⟩ | ⟨l₁, l₂, hsplit, hlt, hfirst, hall⟩
    · subst hr
      rw [heq]
      refine ⟨[], xs, rfl, by simp, ?_⟩
      intro b hb
      rcases List.mem_cons.mp hb with rfl | hb
      · exact le_refl _
      · exact hall b hb
    · subst hr
      refine ⟨x :: l₁, l₂, by rw [List.cons_append, ← hsplit], ?_, ?_⟩
      · intro b hb
        rcases List.mem_cons.mp hb with rfl | hb
        · exact hlt
        · exact hfirst b hb
      · intro b hb
        rcases List.mem_cons.mp hb with rfl | hb
        · exact le_of_lt hlt
        · exact hall b hb

/-- Appending one serialized line per element, starting from some prior
lines, yields the prior lines followed by the mapped list. -/
theorem foldl_append_singleton {α β : Type} (g : α → β) :
    ∀ (l : List α) (init : List β),
      l.foldl (fun acc x => acc ++ [g x]) init = init ++ l.map g
  | [], _ => by simp
  | x :: l, init => by
    simp [List.foldl_cons, foldl_append_singleton g l (init ++ [g x])]

/-- When the destination does not exist, the flight log is the header
line followed by one serialized line per image, in input order. -/
theorem generate_flight_log_lines (image_data : List ImageOut) (cs : String) :
    (generate_flight_log image_data cs none).1 =
      some (flight_log_header cs :: image_data.map (serialize_line cs)) := by
  simp [generate_flight_log, foldl_append_singleton]

/-- Claim C1: for every image with a parsed timestamp, the correlation
step considers exactly the telemetry rows whose time differs from the
image timestamp by at most 2 seconds; if that set is non-empty it
selects the row minimizing the absolute time difference, ties broken in
favor of the first such row in input order; if the set is empty the
image gets no matched sample. -/
theorem correlation_spec (data_rows : List DataRow) (ts : Int) :
    (∀ row, row ∈ relevant_rows data_rows ts ↔ row ∈ data_rows ∧ |row.TIME - ts| ≤ 2) ∧
    (closest_row data_rows ts = none ↔ relevant_rows data_rows ts = []) ∧
    ∀ r, closest_row data_rows ts = some r →
      ∃ l₁ l₂, relevant_rows data_rows ts = l₁ ++ r :: l₂ ∧
        (∀ b ∈ l₁, |r.TIME - ts| < |b.TIME - ts|) ∧
        ∀ b ∈ relevant_rows data_rows ts, |r.TIME - ts| ≤ |b.TIME - ts| := by
  refine ⟨?_, ?_, ?_⟩
  · intro row
    simp [relevant_rows, List.mem_filter]
  · exact pymin_none_iff _ _
  · intro r h
    exact pymin_first_min _ _ _ h

/-- Witness for C1 at a concrete input: with rows at times 10 and 12 and
an image at time 11 both rows are in the window at distance 1, and the
first row in input order is selected. -/
theorem correlation_spec_witness :
    ∃ l₁ l₂,
      relevant_rows [⟨10, none, none, none, none, none, none⟩,
          ⟨12, none, none, none, none, none, none⟩] 11 =
        l₁ ++ (⟨10, none, none, none, none, none, none⟩ : DataRow) :: l₂ ∧
      (∀ b ∈ l₁,
        |(⟨10, none, none, none, none, none, none⟩ : DataRow).TIME - 11| < |b.TIME - 11|) ∧
      ∀ b ∈ relevant_rows [⟨10, none, none, none, none, none, none⟩,
          ⟨12, none, none, none, none, none, none⟩] 11,
        |(⟨10, none, none, none, none, none, none⟩ : DataRow).TIME - 11| ≤ |b.TIME - 11| :=
  (correlation_spec [⟨10, none, none, none, none, none, none⟩,
    ⟨12, none, none, none, none, none, none⟩] 11).2.2
    ⟨10, none, none, none, none, none, none⟩ (by decide)

/-- Counterexample to claim C2 as stated: an image at time 100 with the
only telemetry row at time 200 has no sample within tolerance, yet the
written flight log contains a data row for it, with its absent fields
serialized as `None`. -/
theorem unmatched_row_emitted_cex :
    relevant_rows [⟨200, none, none, none, none, none, none⟩] 100 = [] ∧
    (generate_flight_log (estimate_location proj_id [⟨"a.jpg", 100⟩]
        [⟨200, none, none, none, none, none, none⟩] "").1 "GPS" none).1 =
      some ["Name;Lat;Long;Alt;Yaw;Pitch;Roll",
        "a.jpg;None;None;None;None;None;None"] :=
  ⟨by decide, by decide⟩

/-- Claim C2 (amended): an image with no telemetry sample within
tolerance is not excluded from the delimited flight log; the writer
emits one data row for every image, so the unmatched image's row (with
its absent fields serialized as `None`) appears in the output. -/
theorem unmatched_row_emitted (f : String → ℚ → ℚ → ℚ × ℚ) (image_data : List ImageIn)
    (data_rows : List DataRow) (utm_zone cs : String) (image : ImageIn)
    (hmem : image ∈ image_data)
    (_hrel : relevant_rows data_rows image.TIMESTAMP = []) :
    serialize_line cs (estimate_image f data_rows utm_zone image) ∈
      ((generate_flight_log (estimate_location f image_data data_rows utm_zone).1 cs
        none).1.getD []) := by
  have h1 : (estimate_location f image_data data_rows utm_zone).1 =
      image_data.map (estimate_image f data_rows utm_zone) := rfl
  rw [h1, generate_flight_log_lines]
  simp only [Option.getD_some]
  exact List.mem_cons_of_mem _ (List.mem_map_of_mem _ (List.mem_map_of_mem _ hmem))

/-- Witness for the amended C2 at a concrete input: the unmatched
image's serialized line is among the written lines. -/
theorem unmatched_row_emitted_witness :
    serialize_line "GPS" (estimate_image proj_id
        [⟨201, none, none, none, none, none, none⟩] "" ⟨"a2.jpg", 100⟩) ∈
      ((generate_flight_log (estimate_location proj_id [⟨"a2.jpg", 100⟩]
        [⟨201, none, none, none, none, none, none⟩] "").1 "GPS" none).1.getD []) :=
  unmatched_row_emitted proj_id [⟨"a2.jpg", 100⟩]
    [⟨201, none, none, none, none, none, none⟩] "" "GPS" ⟨"a2.jpg", 100⟩
    (by decide) (by decide)

/-- Claim C3: for every matched image, the estimated pitch is the camera
family's fixed pitch offset (40 for a `P`-prefixed filename, otherwise
0) plus the matched sample's telemetry pitch, the telemetry pitch
defaulting to 0 when absent, so the fixed offset alone results in that
case; the composition is exactly additive. -/
theorem pitch_composition (f : String → ℚ → ℚ → ℚ × ℚ) (data_rows : List DataRow)
    (utm_zone : String) (image : ImageIn) (cm : DataRow)
    (h : closest_row data_rows image.TIMESTAMP = some cm) :
    (estimate_image f data_rows utm_zone image).PITCH =
      some ((if py_startswith image.FILENAME "P" then (40 : ℚ) else 0) + cm.PITCH.getD 0) ∧
    (cm.PITCH = none →
      (estimate_image f data_rows utm_zone image).PITCH =
        some (if py_startswith image.FILENAME "P" then (40 : ℚ) else 0)) := by
  constructor
  · simp [estimate_image, h]
  · intro hp
    simp [estimate_image, h, hp]

/-- Witness for C3 at a concrete input: a `P`-prefixed image matched to
a row with telemetry pitch 3 gets pitch `40 + 3`. -/
theorem pitch_composition_witness :
    (estimate_image proj_id [⟨100, none, none, none, none, some 3, none⟩] ""
        ⟨"P_y.jpg", 101⟩).PITCH =
      some ((if py_startswith "P_y.jpg" "P" then (40 : ℚ) else 0) +
        (⟨100, none, none, none, none, some 3, none⟩ : DataRow).PITCH.getD 0) ∧
    ((⟨100, none, none, none, none, some 3, none⟩ : DataRow).PITCH = none →
      (estimate_image proj_id [⟨100, none, none, none, none, some 3, none⟩] ""
          ⟨"P_y.jpg", 101⟩).PITCH =
        some (if py_startswith "P_y.jpg" "P" then (40 : ℚ) else 0)) :=
  pitch_composition proj_id [⟨100, none, none, none, none, some 3, none⟩] ""
    ⟨"P_y.jpg", 101⟩ ⟨100, none, none, none, none, some 3, none⟩ (by decide)

/-- Counterexample to claim C4 as stated: a telemetry depth cell of
`"12.5"` is stored verbatim as `"12.5"`, not as `-12.5`; and a matched
sample's depth `25/2` is copied unchanged into the image's altitude
estimate, not negated. -/
theorem depth_not_negated_cex :
    read_tsv_data [["TIME", "DEPTH"], ["2023-11-02T01:33:34", "12.5"]] =
      .ok [[("TIME", "2023-11-02T01:33:34"), ("DEPTH", "12.5")]] ∧
    pyDictGet [("TIME", "2023-11-02T01:33:34"), ("DEPTH", "12.5")] "DEPTH" =
      some "12.5" ∧
    some "12.5" ≠ some "-12.5" ∧
    (estimate_image proj_id [⟨100, none, none, some (25 / 2), none, none, none⟩] ""
      ⟨"c.jpg", 100⟩).ALTITUDE_EST = some ((25 : ℚ) / 2) ∧
    ((25 : ℚ) / 2) ≠ -((25 : ℚ) / 2) :=
  ⟨by decide, by decide, by decide, rfl, by norm_num⟩

/-- Claim C4 (amended): the telemetry reader stores every cell verbatim,
applying no sign normalization to depth, and the matched sample's depth
value is copied unchanged into the image's altitude estimate. -/
theorem depth_copied_verbatim (t cell : String) (f : String → ℚ → ℚ → ℚ × ℚ)
    (data_rows : List DataRow) (utm_zone : String) (image : ImageIn) (cm : DataRow)
    (h : closest_row data_rows image.TIMESTAMP = some cm) :
    read_tsv_data [["TIME", "DEPTH"], [t, cell]] =
      .ok [[("TIME", t), ("DEPTH", cell)]] ∧
    pyDictGet [("TIME", t), ("DEPTH", cell)] "DEPTH" = some cell ∧
    (estimate_image f data_rows utm_zone image).ALTITUDE_EST = cm.DEPTH := by
  refine ⟨rfl, rfl, ?_⟩
  simp [estimate_image, h]

/-- Witness for the amended C4 at a concrete input: the cell `"-12.5"`
is stored as written and the matched row's depth is copied through. -/
theorem depth_copied_verbatim_witness :
    read_tsv_data [["TIME", "DEPTH"], ["2023-11-02T01:33:35", "-12.5"]] =
      .ok [[("TIME", "2023-11-02T01:33:35"), ("DEPTH", "-12.5")]] ∧
    pyDictGet [("TIME", "2023-11-02T01:33:35"), ("DEPTH", "-12.5")] "DEPTH" =
      some "-12.5" ∧
    (estimate_image proj_id [⟨300, none, none, some 7, none, none, none⟩] ""
      ⟨"d.jpg", 301⟩).ALTITUDE_EST =
        (⟨300, none, none, some 7, none, none, none⟩ : DataRow).DEPTH :=
  depth_copied_verbatim "2023-11-02T01:33:35" "-12.5" proj_id
    [⟨300, none, none, some 7, none, none, none⟩] "" ⟨"d.jpg", 301⟩
    ⟨300, none, none, some 7, none, none, none⟩ (by decide)

/-- Counterexample to claim C5 as stated: two images producing
byte-identical serialized lines yield two copies of that line in the
written log, not one. -/
theorem dedup_cex :
    ((generate_flight_log [⟨"b.jpg", 0, some 1, some 2, none, none, none, none, none, none⟩,
        ⟨"b.jpg", 0, some 1, some 2, none, none, none, none, none, none⟩] "GPS"
      none).1.getD []).count "b.jpg;1;2;None;None;None;None" = 2 := by decide

/-- Claim C5 (amended): the writer performs no deduplication: the log is
the header followed by one serialized line per image in input order, and
a line appears once per image serializing to it. -/
theorem no_dedup (image_data : List ImageOut) (cs : String) (l : String) :
    ((generate_flight_log image_data cs none).1.getD []).drop 1 =
      image_data.map (serialize_line cs) ∧
    (image_data.map (serialize_line cs)).count l =
      (image_data.filter (fun image => serialize_line cs image == l)).length := by
  constructor
  · rw [generate_flight_log_lines]
    simp
  · rw [List.count_eq_countP, List.countP_map, List.countP_eq_length_filter]
    rfl

/-- Counterexample to claim C6 as stated: projecting with the southern
specifier `"10S"` yields exactly the same result as with `"10N"` — for
the sample projection the northing is `1` in both cases, and `1` is not
`1 - 10000000`. -/
theorem south_offset_cex :
    convert_to_utm proj_id (some 1) (some 2) "10S" =
      convert_to_utm proj_id (some 1) (some 2) "10N" ∧
    (convert_to_utm proj_id (some 1) (some 2) "10S").2 = some (1 : ℚ) ∧
    (1 : ℚ) ≠ 1 - 10000000 :=
  ⟨by decide, by decide, by norm_num⟩

/-- Claim C6 (amended): `convert_to_utm` drops the final character of
the zone specifier and never sets a southern-hemisphere flag, so any two
specifiers agreeing after that drop — in particular `S` and `N`
specifiers of the same zone number — produce identical projections. -/
theorem hemisphere_ignored (f : String → ℚ → ℚ → ℚ × ℚ) (lat lon : Option ℚ)
    (z₁ z₂ : String) (h : z₁.dropRight 1 = z₂.dropRight 1) :
    convert_to_utm f lat lon z₁ = convert_to_utm f lat lon z₂ := by
  cases lat <;> cases lon <;> simp [convert_to_utm, projCall, h]

/-- Witness for the amended C6 at a concrete input. -/
theorem hemisphere_ignored_witness :
    convert_to_utm proj_id (some 3) (some 4) "22S" =
      convert_to_utm proj_id (some 3) (some 4) "22N" :=
  hemisphere_ignored proj_id (some 3) (some 4) "22S" "22N" (by decide)

/-- Counterexample to claim C7 as stated: a WCA filename with no
underscore delimiter makes `parts[1]` raise `IndexError`, which the
handler (catching only `ValueError`) does not intercept, so the
exception escapes `read_image_filenames` and aborts the batch instead
of being reported and skipped. -/
theorem missing_delimiter_cex :
    parse_timestamp_from_filename "20231102013334.jpg" "WCA" = .error "IndexError" ∧
    read_image_filenames (fun _ => true) ["20231102013334.jpg"] "WCA" =
      .error "IndexError" :=
  ⟨by decide, by decide⟩

/-- As long as every image file in the listing parses without an escaped
exception, the directory scan succeeds, and an image whose parse
reported `None` contributes no record. -/
theorem read_image_filenames_go (is_image : String → Bool) (data_type : String) :
    ∀ (files : List String) (acc : List ImageNamed),
      (∀ fn ∈ files, is_image fn = true →
        ∃ r, parse_timestamp_from_filename fn data_type = .ok r) →
      ∃ out, files.foldlM (read_image_step is_image data_type) acc = .ok out ∧
        ∀ q ∈ out, q ∈ acc ∨
          ∃ fn ∈ files, is_image fn = true ∧
            parse_timestamp_from_filename fn data_type = .ok (some q.TIMESTAMP) ∧
            q.FILENAME = fn
  | [], acc, _ => ⟨acc, rfl, fun q hq => Or.inl hq⟩
  | fn :: files, acc, hok => by
    have hstep : List.foldlM (read_image_step is_image data_type) acc (fn :: files) =
        (read_image_step is_image data_type acc fn) >>= fun b =>
          List.foldlM (read_image_step is_image data_type) b files := rfl
    by_cases him : is_image fn = true
    · obtain ⟨r, hr⟩ := hok fn (List.mem_cons_self fn files) him
      have hrec : ∀ fn' ∈ files, is_image fn' = true →
          ∃ r', parse_timestamp_from_filename fn' data_type = .ok r' :=
        fun fn' hfn' h' => hok fn' (List.mem_cons_of_mem fn hfn') h'
      match r, hr with
      | some t, hr =>
        obtain ⟨out, hout, hmem⟩ :=
          read_image_filenames_go is_image data_type files (acc ++ [⟨fn, t⟩]) hrec
        refine ⟨out, ?_, ?_⟩
        · rw [hstep]
          simp only [read_image_step, him, if_pos, hr]
          exact hout
        · intro q hq
          rcases hmem q hq with hq' | ⟨fn', hfn', him', hp', hn'⟩
          · rcases List.mem_append.mp hq' with hq'' | hq''
            · exact Or.inl hq''
            · rcases List.mem_singleton.mp hq'' with rfl
              exact Or.inr ⟨fn, List.mem_cons_self fn files, him, hr, rfl⟩
          · exact Or.inr ⟨fn', List.mem_cons_of_mem fn hfn', him', hp', hn'⟩
      | none, hr =>
        obtain ⟨out, hout, hmem⟩ :=
          read_image_filenames_go is_image data_type files acc hrec
        refine ⟨out, ?_, ?_⟩
        · rw [hstep]
          simp only [read_image_step, him, if_pos, hr]
          exact hout
        · intro q hq
          rcases hmem q hq with hq' | ⟨fn', hfn', him', hp', hn'⟩
          · exact Or.inl hq'
          · exact Or.inr ⟨fn', List.mem_cons_of_mem fn hfn', him', hp', hn'⟩
    · have hrec : ∀ fn' ∈ files, is_image fn' = true →
          ∃ r', parse_timestamp_from_filename fn' data_type = .ok r' :=
        fun fn' hfn' h' => hok fn' (List.mem_cons_of_mem fn hfn') h'
      obtain ⟨out, hout, hmem⟩ :=
        read_image_filenames_go is_image data_type files acc hrec
      refine ⟨out, ?_, ?_⟩
      · rw [hstep]
        have hfalse : is_image fn = false := eq_false_of_ne_true him
        simp only [read_image_step, hfalse, Bool.false_eq_true, if_false]
        exact hout
      · intro q hq
        rcases hmem q hq with hq' | ⟨fn', hfn', him', hp', hn'⟩
        · exact Or.inl hq'
        · exact Or.inr ⟨fn', List.mem_cons_of_mem fn hfn', him', hp', hn'⟩

/-- Claim C7 (amended): for WCA identifiers that do contain the
underscore delimiter, and for all Zeuss identifiers, a timestamp that
fails to parse (wrong length, non-numeric) yields a reported `None` and
the image is excluded while the batch continues; but a WCA identifier
with no underscore raises an uncaught `IndexError` that aborts the
batch (see the counterexample). -/
theorem parse_failure_skippable :
    (∀ fn p1, (py_split fn '_').get? 1 = some p1 →
      parse_timestamp_from_filename fn "WCA" = .ok (strptime14 (p1.take 14))) ∧
    (∀ fn, parse_timestamp_from_filename fn "Zeuss" =
      .ok (strptime14 (py_removeall (py_removeall ((py_split fn '_').headD "") 'T') 'Z'))) ∧
    (∀ (is_image : String → Bool) (files : List String),
      (∀ fn ∈ files, is_image fn = true →
        ∃ r, parse_timestamp_from_filename fn "WCA" = .ok r) →
      ∃ out, read_image_filenames is_image files "WCA" = .ok out ∧
        ∀ fn ∈ files, parse_timestamp_from_filename fn "WCA" = .ok none →
          ∀ q ∈ out, q.FILENAME ≠ fn) := by
  refine ⟨?_, ?_, ?_⟩
  · intro fn p1 h
    unfold parse_timestamp_from_filename
    rw [if_pos rfl, h]
  · intro fn
    simp [parse_timestamp_from_filename]
  · intro is_image files hok
    obtain ⟨out, hout, hmem⟩ := read_image_filenames_go is_image "WCA" files [] hok
    refine ⟨out, hout, ?_⟩
    intro fn _ hnone q hq heq
    rcases hmem q hq with hq' | ⟨fn', _, _, hp', hn'⟩
    · exact absurd hq' (List.not_mem_nil q)
    · rw [heq] at hn'
      rw [← hn'] at hp'
      rw [hnone] at hp'
      exact Option.noConfusion (Except.ok.inj hp')

/-- Witness for the amended C7 at a concrete input: a WCA filename with
a delimiter but a non-numeric timestamp is skipped and the scan
succeeds with no record for it. -/
theorem parse_failure_skippable_witness :
    ∃ out, read_image_filenames (fun _ => true) ["P1_abc.jpg"] "WCA" = .ok out ∧
      ∀ fn ∈ ["P1_abc.jpg"], parse_timestamp_from_filename fn "WCA" = .ok none →
        ∀ q ∈ out, q.FILENAME ≠ fn :=
  parse_failure_skippable.2.2 (fun _ => true) ["P1_abc.jpg"] (by
    intro fn hfn _
    rcases List.mem_singleton.mp hfn with rfl
    exact ⟨none, by decide⟩)

/-- Claim C8: if the flight-log destination already exists when the
writer runs, it refuses to write — it signals the condition (here the
exit flag) and returns the existing content unchanged, never
overwriting it. -/
theorem existing_log_preserved (image_data : List ImageOut) (cs : String)
    (content : List String) :
    generate_flight_log image_data cs (some content) = (some content, true) := rfl

/-- Claim C9: when latitude or longitude is absent the projection
returns `(none, none)` rather than raising, and the corresponding
position fields of a matched image record are absent, not zero: the
geographic fields copy the (absent) source values and both projected
fields are absent. -/
theorem absent_coords_spec (f : String → ℚ → ℚ → ℚ × ℚ) (utm_zone : String) :
    (∀ lat lon : Option ℚ, (lat = none ∨ lon = none) →
      convert_to_utm f lat lon utm_zone = (none, none)) ∧
    (∀ (data_rows : List DataRow) (image : ImageIn) (cm : DataRow),
      closest_row data_rows image.TIMESTAMP = some cm →
      (cm.LAT = none ∨ cm.LONG = none) →
        (estimate_image f data_rows utm_zone image).LAT = cm.LAT ∧
        (estimate_image f data_rows utm_zone image).LONG = cm.LONG ∧
        (estimate_image f data_rows utm_zone image).UTM_X = none ∧
        (estimate_image f data_rows utm_zone image).UTM_Y = none) := by
  have hconv : ∀ lat lon : Option ℚ, (lat = none ∨ lon = none) →
      convert_to_utm f lat lon utm_zone = (none, none) := by
    rintro lat lon (rfl | rfl)
    · rfl
    · cases lat <;> rfl
  refine ⟨hconv, ?_⟩
  intro data_rows image cm h habs
  refine ⟨by simp [estimate_image, h], by simp [estimate_image, h], ?_, ?_⟩
  · simp [estimate_image, h, hconv cm.LAT cm.LONG habs]
  · simp [estimate_image, h, hconv cm.LAT cm.LONG habs]

/-- Witness for C9 at a concrete input: an absent longitude yields an
absent projection result. -/
theorem absent_coords_spec_witness :
    convert_to_utm proj_id (some 5) none "9X" = (none, none) :=
  (absent_coords_spec proj_id "9X").1 (some 5) none (Or.inr rfl)

/-- Claim C10: an image with no telemetry sample within tolerance gets
`LAT`, `LONG`, `UTM_X`, `UTM_Y`, `ALTITUDE_EST`, `HEADING` and `ROLL`
set to absent, while its `PITCH` is 40 when the filename starts with
`P` and absent otherwise. -/
theorem unmatched_fields (f : String → ℚ → ℚ → ℚ × ℚ) (data_rows : List DataRow)
    (utm_zone : String) (image : ImageIn)
    (h : relevant_rows data_rows image.TIMESTAMP = []) :
    estimate_image f data_rows utm_zone image =
      { FILENAME := image.FILENAME, TIMESTAMP := image.TIMESTAMP,
        LAT := none, LONG := none, UTM_X := none, UTM_Y := none,
        ALTITUDE_EST := none, HEADING := none,
        PITCH := if py_startswith image.FILENAME "P" then some 40 else none,
        ROLL := none } := by
  have hc : closest_row data_rows image.TIMESTAMP = none := by
    simp [closest_row, h, pymin]
  simp [estimate_image, hc]

/-- Witness for C10 at a concrete input: a `P`-prefixed unmatched image
keeps only the fixed pitch 40. -/
theorem unmatched_fields_witness :
    estimate_image proj_id [⟨500, none, none, none, none, none, none⟩] "7L"
        ⟨"P_x.jpg", 0⟩ =
      { FILENAME := "P_x.jpg", TIMESTAMP := 0, LAT := none, LONG := none,
        UTM_X := none, UTM_Y := none, ALTITUDE_EST := none, HEADING := none,
        PITCH := if py_startswith "P_x.jpg" "P" then some 40 else none,
        ROLL := none } :=
  unmatched_fields proj_id [⟨500, none, none, none, none, none, none⟩] "7L"
    ⟨"P_x.jpg", 0⟩ (by decide)

end FlightLog
